import Mathlib

/-!
Verification development for the react-native sentry bridge module
(`src/js/wrapper.ts`): a shallow embedding of the `NATIVE` wrapper object,
its envelope construction, scope bridging, severity normalization and
availability gating, together with theorems settling the specification
claims.

JavaScript values crossing the bridge are modelled by `JSValue`
(including `undefined`, which matters for `JSON.stringify` semantics);
JS objects are association lists in insertion order.  Machine details not
observable by the bridge logic (floating point number formatting, UTF-16
lengths) are modelled by `Int` numbers and Lean string lengths.
-/

/-- A JavaScript value as seen by the bridge: `undefined`, `null`,
booleans, (integer-modelled) numbers, strings, arrays and plain objects
(association lists of own enumerable keys in insertion order). -/
inductive JSValue where
  | undefined : JSValue
  | null : JSValue
  | bool (b : Bool) : JSValue
  | num (n : Int) : JSValue
  | str (s : String) : JSValue
  | arr (xs : List JSValue) : JSValue
  | obj (fields : List (String × JSValue)) : JSValue

/-- Whether a JS value is a string (`typeof v === 'string'`). -/
def JSValue.isString : JSValue → Bool
  | .str _ => true
  | _ => false

/-- JSON escape of a single character, as `JSON.stringify` produces for
string values. -/
def jsonEscapeChar (c : Char) : String :=
  if c = '"' then "\\\""
  else if c = '\\' then "\\\\"
  else if c = '\n' then "\\n"
  else if c = '\r' then "\\r"
  else if c = '\t' then "\\t"
  else if c.toNat < 32 then
    "\\u00" ++ String.singleton (Nat.digitChar (c.toNat / 16))
      ++ String.singleton (Nat.digitChar (c.toNat % 16))
  else String.singleton c

/-- JSON text of a string value, double-quoted and escaped. -/
def jsonEscape (s : String) : String :=
  "\"" ++ String.join (s.data.map jsonEscapeChar) ++ "\""

mutual

/-- Embeds `JSON.stringify` on the modelled JS values.  Returns `none` exactly
where JavaScript's `JSON.stringify` returns `undefined` (the value
`undefined` at top level); inside objects such members are dropped and
inside arrays they become `null`. -/
def jsonStringify : JSValue → Option String
  | .undefined => none
  | .null => some "null"
  | .bool true => some "true"
  | .bool false => some "false"
  | .num n => some (toString n)
  | .str s => some (jsonEscape s)
  | .arr xs => some ("[" ++ String.intercalate "," (jsonStringifyArr xs) ++ "]")
  | .obj fs => some ("\x7b" ++ String.intercalate "," (jsonStringifyObj fs) ++ "\x7d")

/-- Array members: a member whose stringification is `undefined` is
rendered as `null`. -/
def jsonStringifyArr : List JSValue → List String
  | [] => []
  | v :: vs => (jsonStringify v).getD "null" :: jsonStringifyArr vs

/-- Object members: a member whose stringification is `undefined` is
dropped from the output. -/
def jsonStringifyObj : List (String × JSValue) → List String
  | [] => []
  | (k, v) :: fs =>
    match jsonStringify v with
    | none => jsonStringifyObj fs
    | some s => (jsonEscape k ++ ":" ++ s) :: jsonStringifyObj fs

end

/-- Embeds `JSON.stringify` of a value known to serialize (objects always do);
the default is never reached for the payloads built by the bridge. -/
def jsonStringifyD (v : JSValue) : String :=
  (jsonStringify v).getD "undefined"

mutual

/-- The embedding of `JSON.parse(JSON.stringify(v))` (the defensive
round-trip the iOS path applies to its payload): object members whose
value stringifies to `undefined` are dropped, array members of that kind
become `null`, everything else is preserved recursively. -/
def jsonRoundTrip : JSValue → JSValue
  | .undefined => .undefined
  | .null => .null
  | .bool b => .bool b
  | .num n => .num n
  | .str s => .str s
  | .arr xs => .arr (jsonRoundTripArr xs)
  | .obj fs => .obj (jsonRoundTripObj fs)

/-- Round-trip of array members (`undefined` becomes `null`). -/
def jsonRoundTripArr : List JSValue → List JSValue
  | [] => []
  | .undefined :: vs => .null :: jsonRoundTripArr vs
  | v :: vs => jsonRoundTrip v :: jsonRoundTripArr vs

/-- Round-trip of object members (`undefined`-valued keys are dropped). -/
def jsonRoundTripObj : List (String × JSValue) → List (String × JSValue)
  | [] => []
  | (_, .undefined) :: fs => jsonRoundTripObj fs
  | (k, v) :: fs => (k, jsonRoundTrip v) :: jsonRoundTripObj fs

end

/-- Field lookup on a JS object value (first occurrence of the key). -/
def JSValue.getField (v : JSValue) (key : String) : Option JSValue :=
  match v with
  | .obj fs => fs.lookup key
  | _ => none

/-! ## Severity and its normalization (`_processLevel`) -/

/-- The `Severity` vocabulary of `@sentry/types`. -/
inductive Severity where
  | fatal | error | warning | log | info | debug | critical
deriving DecidableEq, Repr

/-- JS string value of a severity (the enum's string members). -/
def Severity.toStr : Severity → String
  | .fatal => "fatal"
  | .error => "error"
  | .warning => "warning"
  | .log => "log"
  | .info => "info"
  | .debug => "debug"
  | .critical => "critical"

/-! ## The serializer (`_serializeObject`) -/

/-- One value of `_serializeObject` / `setExtra` / `setTag` stringification:
`typeof value === 'string' ? value : JSON.stringify(value)`.  Note that
`JSON.stringify(undefined)` is the value `undefined`, not a string. -/
def serializeValue (v : JSValue) : JSValue :=
  if v.isString then v
  else
    match jsonStringify v with
    | some s => .str s
    | none => .undefined

/-! ## Event, breadcrumb, exception model -/

/-- A breadcrumb (`@sentry/types`), with the fields the bridge reads. -/
structure Breadcrumb where
  category : Option String := none
  type : Option String := none
  message : Option String := none
  level : Option Severity := none
  data : Option (List (String × JSValue)) := none
  timestamp : Option Int := none

/-- An exception mechanism; the bridge only reads `handled`. -/
structure Mechanism where
  handled : Option Bool := none
  mechType : Option String := none

/-- One exception value inside `event.exception.values`. -/
structure ExceptionValue where
  value : Option String := none
  exnType : Option String := none
  mechanism : Option Mechanism := none

/-- Embeds `event.exception`. -/
structure ExceptionInfo where
  values : Option (List ExceptionValue) := none

/-- An event, with the fields the bridge inspects or rewrites; fields the
bridge merely spread-copies are represented by the opaque `sdk`,
`exception` and `type` slots plus the explicitly handled ones.  `none`
models the field being absent/undefined. -/
structure Event where
  event_id : Option String := none
  level : Option Severity := none
  message : Option String := none
  breadcrumbs : Option (List Breadcrumb) := none
  exception : Option ExceptionInfo := none
  sdk : Option JSValue := none
  type : Option String := none
  sdkProcessingMetadata : Option JSValue := none

/-! ## JS views of breadcrumbs and events (for payload construction) -/

/-- An `Option` field as a JS member value (`undefined` when absent). -/
def optJS (f : α → JSValue) : Option α → JSValue
  | none => .undefined
  | some a => f a

/-- A breadcrumb as the JS object crossing the bridge. -/
def Breadcrumb.toJS (b : Breadcrumb) : JSValue :=
  .obj [
    ("category", optJS JSValue.str b.category),
    ("type", optJS JSValue.str b.type),
    ("message", optJS JSValue.str b.message),
    ("level", optJS (fun l => JSValue.str l.toStr) b.level),
    ("data", optJS JSValue.obj b.data),
    ("timestamp", optJS JSValue.num b.timestamp)
  ]

/-- A mechanism as a JS object. -/
def Mechanism.toJS (m : Mechanism) : JSValue :=
  .obj [
    ("handled", optJS JSValue.bool m.handled),
    ("type", optJS JSValue.str m.mechType)
  ]

/-- An exception value as a JS object. -/
def ExceptionValue.toJS (e : ExceptionValue) : JSValue :=
  .obj [
    ("value", optJS JSValue.str e.value),
    ("type", optJS JSValue.str e.exnType),
    ("mechanism", optJS Mechanism.toJS e.mechanism)
  ]

/-- Embeds `event.exception` as a JS object. -/
def ExceptionInfo.toJS (e : ExceptionInfo) : JSValue :=
  .obj [("values", optJS (fun vs => JSValue.arr (vs.map ExceptionValue.toJS)) e.values)]

/-! ## The bridge wrapper (`NATIVE`) -/

/-- Errors thrown by the wrapper: `_NativeClientError`
("Native Client is not available") and `_DisabledNativeError`
("Native is disabled"). -/
inductive BridgeError where
  | nativeClientError
  | disabledNativeError
deriving DecidableEq, Repr

/-- Bridge-global state: the `enableNative` / `nativeIsReady` flags of
the `NATIVE` object, whether the `RNSentry` module handle resolved at
process start, and `Platform.OS`. -/
structure BridgeState where
  enableNative : Bool := true
  nativeIsReady : Bool := false
  moduleLoaded : Bool := true
  platform : String := "ios"
deriving DecidableEq, Repr

/-- Calls reaching the `RNSentry` native module. -/
inductive NativeCall where
  | initNativeSdk
  | closeNativeSdk
  | captureEnvelopeText (envelope : String)
  | captureEnvelopeStruct (header payload : JSValue)
  | getStringBytesLength (payload : String)
  | fetchNativeRelease
  | fetchNativeSdkInfo
  | fetchNativeDeviceContexts
  | fetchNativeAppStart
  | fetchNativeFrames
  | setUser (defaultUserKeys otherUserKeys : Option (List (String × JSValue)))
  | setTag (key value : String)
  | setExtra (key : String) (value : JSValue)
  | addBreadcrumb (b : Breadcrumb)
  | clearBreadcrumbs
  | setContext (key : String) (value : Option (List (String × JSValue)))
  | crash
  | disableNativeFramesTracking

/-- Observable actions of one wrapper operation, in execution order:
native-module calls, writes to `enableNative`, and logged warnings. -/
inductive BridgeAction where
  | native (c : NativeCall)
  | setEnableNative (b : Bool)
  | warn (msg : String)

namespace NATIVE

/-- Embeds `_processLevel`: convert js severity `critical → fatal`,
`log → debug`, identity otherwise. -/
def _processLevel (level : Severity) : Severity :=
  if level = .critical then .fatal
  else if level = .log then .debug
  else level

/-- The breadcrumb rewrite inside `_processLevels`:
`{...breadcrumb, level: breadcrumb.level ? _processLevel(level) : undefined}`. -/
def _processBreadcrumbLevel (b : Breadcrumb) : Breadcrumb :=
  { b with level := b.level.map _processLevel }

/-- Embeds `_processLevels`: normalize `event.level` and every breadcrumb's
level. -/
def _processLevels (event : Event) : Event :=
  { event with
    level := event.level.map _processLevel,
    breadcrumbs := event.breadcrumbs.map (List.map _processBreadcrumbLevel) }

/-- Embeds `_serializeObject`: serialize all root-level values to strings via
`typeof value === 'string' ? value : JSON.stringify(value)`; nested
objects are stringified whole, not walked. -/
def _serializeObject (data : List (String × JSValue)) : List (String × JSValue) :=
  data.map (fun kv => (kv.1, serializeValue kv.2))

/-- Embeds `_isModuleLoaded`. -/
def _isModuleLoaded (st : BridgeState) : Bool :=
  st.moduleLoaded

/-- Embeds `isNativeTransportAvailable`. -/
def isNativeTransportAvailable (st : BridgeState) : Bool :=
  st.enableNative && st.moduleLoaded

/-- Embeds `event.exception?.values?.[0]?.mechanism?.handled` via optional
chaining (`none` models `undefined` at any step). -/
def eventHandled (event : Event) : Option Bool :=
  (((event.exception.bind ExceptionInfo.values).bind List.head?).bind
    ExceptionValue.mechanism).bind Mechanism.handled

/-- The Android breadcrumb-duplication special case (mutating the event
before payload construction): clear the breadcrumbs whenever
`handled != false` (loose inequality, so also when `handled` is absent)
and the breadcrumb field is present. -/
def androidAdjustBreadcrumbs (event : Event) : Event :=
  if eventHandled event ≠ some false ∧ event.breadcrumbs.isSome then
    { event with breadcrumbs := some [] }
  else event

/-- Event preparation shared by both platform paths of `sendEvent`:
`_processLevels` followed by `delete event.sdkProcessingMetadata`. -/
def preparedEvent (event : Event) : Event :=
  { _processLevels event with sdkProcessingMetadata := none }

/-- The envelope header `{event_id: event.event_id, sdk: event.sdk}`. -/
def headerJS (event : Event) : JSValue :=
  .obj [
    ("event_id", optJS JSValue.str event.event_id),
    ("sdk", optJS id event.sdk)
  ]

/-- The payload `{...event, message: {message: event.message}}` as a JS
object (absent fields appear as `undefined` members, which serialize
identically to absent ones; the deleted `sdkProcessingMetadata` key is
gone). -/
def payloadJS (event : Event) : JSValue :=
  .obj [
    ("event_id", optJS JSValue.str event.event_id),
    ("level", optJS (fun l => JSValue.str l.toStr) event.level),
    ("breadcrumbs", optJS (fun bs => JSValue.arr (bs.map Breadcrumb.toJS)) event.breadcrumbs),
    ("exception", optJS ExceptionInfo.toJS event.exception),
    ("sdk", optJS id event.sdk),
    ("type", optJS JSValue.str event.type),
    ("message", .obj [("message", optJS JSValue.str event.message)])
  ]

/-- The event whose payload the Android path serializes: prepared, then
breadcrumb-adjusted. -/
def androidPreparedEvent (event : Event) : Event :=
  androidAdjustBreadcrumbs (preparedEvent event)

/-- The Android payload object. -/
def androidPayload (event : Event) : JSValue :=
  payloadJS (androidPreparedEvent event)

/-- The iOS payload object before the defensive round-trip. -/
def iosPayloadRaw (event : Event) : JSValue :=
  payloadJS (preparedEvent event)

/-- The iOS `serializedPayload`: the payload after
`JSON.parse(JSON.stringify(payload))`. -/
def iosPayload (event : Event) : JSValue :=
  jsonRoundTrip (iosPayloadRaw event)

/-- The Android envelope item descriptor
`{content_type, length, type: payload.type ?? 'event'}`. -/
def androidItemJS (event : Event) (length : Nat) : JSValue :=
  .obj [
    ("content_type", .str "application/json"),
    ("length", .num (Int.ofNat length)),
    ("type", .str ((androidPreparedEvent event).type.getD "event"))
  ]

/-- Result statuses of `sendEvent` (`Response.status`). -/
inductive SendStatus where
  | skipped
  | success
  | failed
deriving DecidableEq, Repr

end NATIVE

/-- Options passed to `initNativeSdk` (the fields it inspects); `none`
models an absent field, so the spread defaults
`{enableNative: true, autoInitializeNativeSdk: true, ...originalOptions}`
take effect. -/
structure ReactNativeOptions where
  enableNative : Option Bool := none
  autoInitializeNativeSdk : Option Bool := none
  enableNativeNagger : Option Bool := none
  dsn : Option String := none
deriving DecidableEq, Repr

/-- JS falsiness of `options.dsn` (`undefined` or the empty string). -/
def dsnFalsy : Option String → Bool
  | none => true
  | some s => s = ""

namespace NATIVE

/-- Embeds `sendEvent`: gate checks, level processing, metadata stripping, then
the platform-specific envelope construction and capture call.
`lenReply` models the reply of `RNSentry.getStringBytesLength` (`none`
when that call throws), `sentReply` the boolean reply of
`RNSentry.captureEnvelope`. -/
def sendEvent (st : BridgeState) (event : Event) (lenReply : Option Nat)
    (sentReply : Bool) :
    Except BridgeError SendStatus × BridgeState × List BridgeAction :=
  if !st.enableNative then (.ok .skipped, st, [])
  else if !_isModuleLoaded st then (.error .nativeClientError, st, [])
  else
    let e := preparedEvent event
    let header := headerJS e
    if st.platform = "android" then
      let headerString := jsonStringifyD header
      let e2 := androidAdjustBreadcrumbs e
      let payloadString := jsonStringifyD (payloadJS e2)
      let length := lenReply.getD payloadString.length
      let itemString := jsonStringifyD (androidItemJS event length)
      let envelopeString := headerString ++ "\n" ++ itemString ++ "\n" ++ payloadString
      (.ok (if sentReply then .success else .failed), st,
        [.native (.getStringBytesLength payloadString),
         .native (.captureEnvelopeText envelopeString)])
    else
      let serializedPayload := jsonRoundTrip (payloadJS e)
      (.ok (if sentReply then .success else .failed), st,
        [.native (.captureEnvelopeStruct header serializedPayload)])

/-- Embeds `initNativeSdk`: short-circuits (returning `false`) when native is
disabled by options, auto-init is off, or the DSN is falsy; throws
`_NativeClientError` when the module is absent; otherwise forwards the
filtered options and records the readiness reply. -/
def initNativeSdk (st : BridgeState) (originalOptions : ReactNativeOptions)
    (readyReply : Bool) :
    Except BridgeError Bool × BridgeState × List BridgeAction :=
  let optEnableNative := originalOptions.enableNative.getD true
  let optAutoInit := originalOptions.autoInitializeNativeSdk.getD true
  let optNagger := originalOptions.enableNativeNagger.getD false
  if !optEnableNative then
    (.ok false, { st with enableNative := false },
      (if optNagger then [.warn "Note: Native Sentry SDK is disabled."] else [])
        ++ [.setEnableNative false])
  else if !optAutoInit then
    (.ok false, st,
      if optNagger then
        [.warn "Note: Native Sentry SDK was not initialized automatically, you will need to initialize it manually. If you wish to disable the native SDK and get rid of this warning, pass enableNative: false"]
      else [])
  else if dsnFalsy originalOptions.dsn then
    (.ok false, st,
      [.warn "Warning: No DSN was provided. The Sentry SDK will be disabled. Native SDK will also not be initalized."])
  else if !_isModuleLoaded st then
    (.error .nativeClientError, st, [])
  else
    (.ok readyReply, { st with nativeIsReady := readyReply },
      [.native .initNativeSdk])

/-- Embeds `closeNativeSdk`: no-op when disabled or the module is absent;
otherwise calls native `closeNativeSdk` and flips `enableNative` to
`false` only in the continuation of the resolved promise. -/
def closeNativeSdk (st : BridgeState) :
    Except BridgeError Unit × BridgeState × List BridgeAction :=
  if !st.enableNative then (.ok (), st, [])
  else if !_isModuleLoaded st then (.ok (), st, [])
  else
    (.ok (), { st with enableNative := false },
      [.native .closeNativeSdk, .setEnableNative false])

/-- Embeds `fetchNativeRelease`. -/
def fetchNativeRelease (st : BridgeState) (reply : JSValue) :
    Except BridgeError JSValue × BridgeState × List BridgeAction :=
  if !st.enableNative then (.error .disabledNativeError, st, [])
  else if !_isModuleLoaded st then (.error .nativeClientError, st, [])
  else (.ok reply, st, [.native .fetchNativeRelease])

/-- Embeds `fetchNativeSdkInfo` (iOS only; `null` elsewhere). -/
def fetchNativeSdkInfo (st : BridgeState) (reply : JSValue) :
    Except BridgeError JSValue × BridgeState × List BridgeAction :=
  if !st.enableNative then (.error .disabledNativeError, st, [])
  else if !_isModuleLoaded st then (.error .nativeClientError, st, [])
  else if st.platform ≠ "ios" then (.ok .null, st, [])
  else (.ok reply, st, [.native .fetchNativeSdkInfo])

/-- Embeds `fetchNativeDeviceContexts` (iOS only; empty object elsewhere). -/
def fetchNativeDeviceContexts (st : BridgeState) (reply : JSValue) :
    Except BridgeError JSValue × BridgeState × List BridgeAction :=
  if !st.enableNative then (.error .disabledNativeError, st, [])
  else if !_isModuleLoaded st then (.error .nativeClientError, st, [])
  else if st.platform ≠ "ios" then (.ok (.obj []), st, [])
  else (.ok reply, st, [.native .fetchNativeDeviceContexts])

/-- Embeds `fetchNativeAppStart`. -/
def fetchNativeAppStart (st : BridgeState) (reply : JSValue) :
    Except BridgeError JSValue × BridgeState × List BridgeAction :=
  if !st.enableNative then (.error .disabledNativeError, st, [])
  else if !_isModuleLoaded st then (.error .nativeClientError, st, [])
  else (.ok reply, st, [.native .fetchNativeAppStart])

/-- Embeds `fetchNativeFrames`. -/
def fetchNativeFrames (st : BridgeState) (reply : JSValue) :
    Except BridgeError JSValue × BridgeState × List BridgeAction :=
  if !st.enableNative then (.error .disabledNativeError, st, [])
  else if !_isModuleLoaded st then (.error .nativeClientError, st, [])
  else (.ok reply, st, [.native .fetchNativeFrames])

/-- The default-keys object literal `{email, id, ip_address, username}`
built by `setUser` from the destructured user (absent keys are
`undefined`). -/
def defaultUserKeysObj (user : List (String × JSValue)) : List (String × JSValue) :=
  [("email", (user.lookup "email").getD .undefined),
   ("id", (user.lookup "id").getD .undefined),
   ("ip_address", (user.lookup "ip_address").getD .undefined),
   ("username", (user.lookup "username").getD .undefined)]

/-- The rest object `otherKeys` of the destructuring
`const { id, ip_address, email, username, ...otherKeys } = user`. -/
def otherUserKeysObj (user : List (String × JSValue)) : List (String × JSValue) :=
  user.filter (fun kv =>
    !(kv.1 == "id" || kv.1 == "ip_address" || kv.1 == "email" || kv.1 == "username"))

/-- Embeds `setUser`: split a non-null user into serialized default-keys and
other-keys maps and forward both in one native call; forward two nulls
for a null user. -/
def setUser (st : BridgeState) (user : Option (List (String × JSValue))) :
    Except BridgeError Unit × BridgeState × List BridgeAction :=
  if !st.enableNative then (.ok (), st, [])
  else if !_isModuleLoaded st then (.error .nativeClientError, st, [])
  else
    match user with
    | some u =>
      (.ok (), st,
        [.native (.setUser (some (_serializeObject (defaultUserKeysObj u)))
          (some (_serializeObject (otherUserKeysObj u))))])
    | none => (.ok (), st, [.native (.setUser none none)])

/-- Embeds `setTag` (the value is a string by signature, so the defensive
stringification passes it through). -/
def setTag (st : BridgeState) (key value : String) :
    Except BridgeError Unit × BridgeState × List BridgeAction :=
  if !st.enableNative then (.ok (), st, [])
  else if !_isModuleLoaded st then (.error .nativeClientError, st, [])
  else (.ok (), st, [.native (.setTag key value)])

/-- Embeds `setExtra`: stringify the extra unless it is already a string. -/
def setExtra (st : BridgeState) (key : String) (extra : JSValue) :
    Except BridgeError Unit × BridgeState × List BridgeAction :=
  if !st.enableNative then (.ok (), st, [])
  else if !_isModuleLoaded st then (.error .nativeClientError, st, [])
  else (.ok (), st, [.native (.setExtra key (serializeValue extra))])

/-- The breadcrumb forwarded by `addBreadcrumb`: level normalized, data
serialized. -/
def forwardedBreadcrumb (breadcrumb : Breadcrumb) : Breadcrumb :=
  { breadcrumb with
    level := breadcrumb.level.map _processLevel,
    data := breadcrumb.data.map _serializeObject }

/-- Embeds `addBreadcrumb`. -/
def addBreadcrumb (st : BridgeState) (breadcrumb : Breadcrumb) :
    Except BridgeError Unit × BridgeState × List BridgeAction :=
  if !st.enableNative then (.ok (), st, [])
  else if !_isModuleLoaded st then (.error .nativeClientError, st, [])
  else (.ok (), st, [.native (.addBreadcrumb (forwardedBreadcrumb breadcrumb))])

/-- Embeds `clearBreadcrumbs`. -/
def clearBreadcrumbs (st : BridgeState) :
    Except BridgeError Unit × BridgeState × List BridgeAction :=
  if !st.enableNative then (.ok (), st, [])
  else if !_isModuleLoaded st then (.error .nativeClientError, st, [])
  else (.ok (), st, [.native .clearBreadcrumbs])

/-- Embeds `setContext`: serialize a non-null context map, forward `null`
otherwise. -/
def setContext (st : BridgeState) (key : String)
    (context : Option (List (String × JSValue))) :
    Except BridgeError Unit × BridgeState × List BridgeAction :=
  if !st.enableNative then (.ok (), st, [])
  else if !_isModuleLoaded st then (.error .nativeClientError, st, [])
  else (.ok (), st, [.native (.setContext key (context.map _serializeObject))])

/-- Embeds `nativeCrash` (test-only). -/
def nativeCrash (st : BridgeState) :
    Except BridgeError Unit × BridgeState × List BridgeAction :=
  if !st.enableNative then (.ok (), st, [])
  else if !_isModuleLoaded st then (.error .nativeClientError, st, [])
  else (.ok (), st, [.native .crash])

/-- Embeds `disableNativeFramesTracking`: silently returns when disabled or the
module is absent. -/
def disableNativeFramesTracking (st : BridgeState) :
    Except BridgeError Unit × BridgeState × List BridgeAction :=
  if !st.enableNative then (.ok (), st, [])
  else if !_isModuleLoaded st then (.ok (), st, [])
  else (.ok (), st, [.native .disableNativeFramesTracking])

end NATIVE

/-! ## The operations of the bridge, enumerated (for whole-bridge claims) -/

/-- One invocation of a wrapper operation, with its arguments and the
native replies it consumes. -/
inductive BridgeOp where
  | sendEvent (event : Event) (lenReply : Option Nat) (sentReply : Bool)
  | initNativeSdk (options : ReactNativeOptions) (readyReply : Bool)
  | closeNativeSdk
  | fetchNativeRelease (reply : JSValue)
  | fetchNativeSdkInfo (reply : JSValue)
  | fetchNativeDeviceContexts (reply : JSValue)
  | fetchNativeAppStart (reply : JSValue)
  | fetchNativeFrames (reply : JSValue)
  | setUser (user : Option (List (String × JSValue)))
  | setTag (key value : String)
  | setExtra (key : String) (extra : JSValue)
  | addBreadcrumb (breadcrumb : Breadcrumb)
  | clearBreadcrumbs
  | setContext (key : String) (context : Option (List (String × JSValue)))
  | nativeCrash
  | disableNativeFramesTracking

/-- Results of the operations, merged into one type. -/
inductive OpResult where
  | unitR
  | boolR (b : Bool)
  | sendR (s : NATIVE.SendStatus)
  | valueR (v : JSValue)

/-- Run one wrapper operation against the bridge state. -/
def runOp : BridgeOp → BridgeState →
    Except BridgeError OpResult × BridgeState × List BridgeAction
  | .sendEvent e len sent, st =>
    let (r, st2, as) := NATIVE.sendEvent st e len sent
    (r.map .sendR, st2, as)
  | .initNativeSdk opts ready, st =>
    let (r, st2, as) := NATIVE.initNativeSdk st opts ready
    (r.map .boolR, st2, as)
  | .closeNativeSdk, st =>
    let (r, st2, as) := NATIVE.closeNativeSdk st
    (r.map fun _ => .unitR, st2, as)
  | .fetchNativeRelease reply, st =>
    let (r, st2, as) := NATIVE.fetchNativeRelease st reply
    (r.map .valueR, st2, as)
  | .fetchNativeSdkInfo reply, st =>
    let (r, st2, as) := NATIVE.fetchNativeSdkInfo st reply
    (r.map .valueR, st2, as)
  | .fetchNativeDeviceContexts reply, st =>
    let (r, st2, as) := NATIVE.fetchNativeDeviceContexts st reply
    (r.map .valueR, st2, as)
  | .fetchNativeAppStart reply, st =>
    let (r, st2, as) := NATIVE.fetchNativeAppStart st reply
    (r.map .valueR, st2, as)
  | .fetchNativeFrames reply, st =>
    let (r, st2, as) := NATIVE.fetchNativeFrames st reply
    (r.map .valueR, st2, as)
  | .setUser user, st =>
    let (r, st2, as) := NATIVE.setUser st user
    (r.map fun _ => .unitR, st2, as)
  | .setTag k v, st =>
    let (r, st2, as) := NATIVE.setTag st k v
    (r.map fun _ => .unitR, st2, as)
  | .setExtra k x, st =>
    let (r, st2, as) := NATIVE.setExtra st k x
    (r.map fun _ => .unitR, st2, as)
  | .addBreadcrumb b, st =>
    let (r, st2, as) := NATIVE.addBreadcrumb st b
    (r.map fun _ => .unitR, st2, as)
  | .clearBreadcrumbs, st =>
    let (r, st2, as) := NATIVE.clearBreadcrumbs st
    (r.map fun _ => .unitR, st2, as)
  | .setContext k c, st =>
    let (r, st2, as) := NATIVE.setContext st k c
    (r.map fun _ => .unitR, st2, as)
  | .nativeCrash, st =>
    let (r, st2, as) := NATIVE.nativeCrash st
    (r.map fun _ => .unitR, st2, as)
  | .disableNativeFramesTracking, st =>
    let (r, st2, as) := NATIVE.disableNativeFramesTracking st
    (r.map fun _ => .unitR, st2, as)

/-- The state after one operation. -/
def opState (op : BridgeOp) (st : BridgeState) : BridgeState :=
  (runOp op st).2.1

/-- The action trace of one operation. -/
def opActions (op : BridgeOp) (st : BridgeState) : List BridgeAction :=
  (runOp op st).2.2

/-! ## Claims -/

/-- C5: Severity normalization maps `critical` to `fatal` and `log` to
`debug` and is the identity on every other severity; `_processLevels`
applies it to the top-level event severity and to every breadcrumb's
severity inside an event being sent, and `addBreadcrumb` applies it to a
breadcrumb's severity when added individually to native scope. -/
theorem claim_C5_severity_normalization (l : Severity) (e : Event)
    (st : BridgeState) (b : Breadcrumb)
    (hl1 : l ≠ .critical) (hl2 : l ≠ .log)
    (hen : st.enableNative = true) (hmod : st.moduleLoaded = true) :
    NATIVE._processLevel .critical = .fatal ∧
    NATIVE._processLevel .log = .debug ∧
    NATIVE._processLevel l = l ∧
    (NATIVE._processLevels e).level = e.level.map NATIVE._processLevel ∧
    (NATIVE._processLevels e).breadcrumbs =
      e.breadcrumbs.map (List.map (fun b0 =>
        { b0 with level := b0.level.map NATIVE._processLevel })) ∧
    NATIVE.addBreadcrumb st b =
      (.ok (), st, [.native (.addBreadcrumb
        { b with level := b.level.map NATIVE._processLevel,
                 data := b.data.map NATIVE._serializeObject })]) := by
  refine ⟨rfl, rfl, ?_, rfl, rfl, ?_⟩
  · simp [NATIVE._processLevel, hl1, hl2]
  · simp [NATIVE.addBreadcrumb, NATIVE._isModuleLoaded, hen, hmod,
      NATIVE.forwardedBreadcrumb]

/-- Witness for C5 at a concrete severity, event, state and breadcrumb. -/
theorem claim_C5_witness :
    NATIVE._processLevel .info = .info :=
  (claim_C5_severity_normalization .info {}
    { enableNative := true, nativeIsReady := false,
      moduleLoaded := true, platform := "ios" } {}
    (by decide) (by decide) rfl rfl).2.2.1

/-- C6 (counterexample): on the input `{k: undefined}` the serializer
returns `{k: undefined}` — the key's value is not a string and is not
any JSON text, refuting "any other value is replaced by its JSON text
representation" for every input map. -/
theorem claim_C6_counterexample :
    NATIVE._serializeObject [("k", JSValue.undefined)] = [("k", JSValue.undefined)] ∧
    JSValue.isString JSValue.undefined = false :=
  ⟨rfl, rfl⟩

/-- C6 (amended): for every input map all of whose values are strings or
`JSON.stringify`-serializable (in particular, not `undefined`), the
serializer returns a map with the same keys where string values pass
through unchanged and every other value becomes its JSON text; nested
objects are stringified whole by `jsonStringify`, not walked. -/
theorem claim_C6_serializer (data : List (String × JSValue))
    (h : ∀ kv ∈ data, kv.2.isString = true ∨ (jsonStringify kv.2).isSome = true) :
    (NATIVE._serializeObject data).map Prod.fst = data.map Prod.fst ∧
    NATIVE._serializeObject data = data.map (fun kv =>
      (kv.1, if kv.2.isString then kv.2 else .str (jsonStringifyD kv.2))) := by
  constructor
  · simp [NATIVE._serializeObject]
  · induction data with
    | nil => rfl
    | cons kv rest ih =>
      have hkv := h kv (List.mem_cons_self kv rest)
      have hrest : ∀ kv2 ∈ rest, kv2.2.isString = true ∨ (jsonStringify kv2.2).isSome = true :=
        fun kv2 hm => h kv2 (List.mem_cons_of_mem kv hm)
      simp only [NATIVE._serializeObject, List.map_cons] at ih ⊢
      refine congrArg₂ List.cons ?_ (ih hrest)
      by_cases hs : kv.2.isString = true
      · simp [serializeValue, hs]
      · rcases hkv with hkv | hkv
        · exact absurd hkv hs
        · rcases Option.isSome_iff_exists.mp hkv with ⟨s, hsome⟩
          simp [serializeValue, hs, hsome, jsonStringifyD]

/-- Witness for C6 at the spec's example map
`{a: "x", b: 5, c: {k: 1}}`. -/
theorem claim_C6_witness :
    NATIVE._serializeObject
      [("a", JSValue.str "x"), ("b", JSValue.num 5),
       ("c", JSValue.obj [("k", JSValue.num 1)])] =
      [("a", JSValue.str "x"), ("b", JSValue.str "5"),
       ("c", JSValue.str "\x7b\"k\":1\x7d")] := by
  have h := claim_C6_serializer
    [("a", JSValue.str "x"), ("b", JSValue.num 5),
     ("c", JSValue.obj [("k", JSValue.num 1)])]
    (by
      intro kv hkv
      rcases List.mem_cons.mp hkv with h1 | h1
      · rw [h1]; exact Or.inl rfl
      rcases List.mem_cons.mp h1 with h2 | h2
      · rw [h2]; exact Or.inr rfl
      rcases List.mem_cons.mp h2 with h3 | h3
      · rw [h3]; exact Or.inr rfl
      · cases h3)
  exact h.2.trans (by rfl)

/-- C10: `_serializeObject` keeps a key whose value is `undefined` with
the value `undefined` (not a string), so the declared string-to-string
return shape does not hold for all inputs; `setUser` with a user missing
default keys forwards a default-keys map with `undefined` values for the
missing fields. -/
theorem claim_C10_undefined_survives_serialization :
    NATIVE._serializeObject [("plan", JSValue.undefined)] =
      [("plan", JSValue.undefined)] ∧
    JSValue.isString JSValue.undefined = false ∧
    NATIVE.setUser
      { enableNative := true, nativeIsReady := false,
        moduleLoaded := true, platform := "ios" }
      (some [("id", JSValue.str "1")]) =
      (.ok (),
        { enableNative := true, nativeIsReady := false,
          moduleLoaded := true, platform := "ios" },
        [.native (.setUser
          (some [("email", JSValue.undefined), ("id", JSValue.str "1"),
                 ("ip_address", JSValue.undefined), ("username", JSValue.undefined)])
          (some []))]) :=
  ⟨rfl, rfl, rfl⟩

/-- C7: for every non-null user (with native enabled and the module
loaded), `setUser` splits it into the default-keys object — holding
exactly the `email`, `id`, `ip_address`, `username` fields — and the
independent rest object, passes both through `_serializeObject`, and
forwards them in one native `setUser` call; `setUser(null)` forwards two
null maps. -/
theorem claim_C7_setUser_split (st : BridgeState) (u : List (String × JSValue))
    (hen : st.enableNative = true) (hmod : st.moduleLoaded = true) :
    NATIVE.setUser st (some u) =
      (.ok (), st, [.native (.setUser
        (some (NATIVE._serializeObject (NATIVE.defaultUserKeysObj u)))
        (some (NATIVE._serializeObject (NATIVE.otherUserKeysObj u))))]) ∧
    (NATIVE.defaultUserKeysObj u).map Prod.fst =
      ["email", "id", "ip_address", "username"] ∧
    (∀ kv ∈ NATIVE.otherUserKeysObj u, kv ∈ u ∧
      kv.1 ≠ "id" ∧ kv.1 ≠ "ip_address" ∧ kv.1 ≠ "email" ∧ kv.1 ≠ "username") ∧
    NATIVE.setUser st none = (.ok (), st, [.native (.setUser none none)]) := by
  refine ⟨?_, rfl, ?_, ?_⟩
  · simp [NATIVE.setUser, NATIVE._isModuleLoaded, hen, hmod]
  · intro kv hkv
    have := List.mem_filter.mp hkv
    refine ⟨this.1, ?_⟩
    have hb := this.2
    simp only [Bool.not_eq_true', Bool.or_eq_false_iff, beq_eq_false_iff_ne] at hb
    exact ⟨hb.1.1.1, hb.1.1.2, hb.1.2, hb.2⟩
  · simp [NATIVE.setUser, NATIVE._isModuleLoaded, hen, hmod]

/-- Witness for C7 at the spec's example user. -/
theorem claim_C7_witness :
    NATIVE.setUser
      { enableNative := true, nativeIsReady := false,
        moduleLoaded := true, platform := "ios" }
      (some [("id", JSValue.str "1"), ("email", JSValue.str "e@x.com"),
             ("ip_address", JSValue.str "1.2.3.4"),
             ("username", JSValue.str "u"), ("plan", JSValue.str "pro")]) =
      (.ok (),
        { enableNative := true, nativeIsReady := false,
          moduleLoaded := true, platform := "ios" },
        [.native (.setUser
          (some (NATIVE._serializeObject (NATIVE.defaultUserKeysObj
            [("id", JSValue.str "1"), ("email", JSValue.str "e@x.com"),
             ("ip_address", JSValue.str "1.2.3.4"),
             ("username", JSValue.str "u"), ("plan", JSValue.str "pro")])))
          (some (NATIVE._serializeObject (NATIVE.otherUserKeysObj
            [("id", JSValue.str "1"), ("email", JSValue.str "e@x.com"),
             ("ip_address", JSValue.str "1.2.3.4"),
             ("username", JSValue.str "u"), ("plan", JSValue.str "pro")]))))]) :=
  (claim_C7_setUser_split
    { enableNative := true, nativeIsReady := false,
      moduleLoaded := true, platform := "ios" }
    [("id", JSValue.str "1"), ("email", JSValue.str "e@x.com"),
     ("ip_address", JSValue.str "1.2.3.4"),
     ("username", JSValue.str "u"), ("plan", JSValue.str "pro")]
    rfl rfl).1

/-- C8: whenever `enableNative` is false, every scope-mutation call
returns immediately as a no-op, `sendEvent` returns the `skipped`
result, and in all of these cases the action trace is empty — zero calls
reach the native module. -/
theorem claim_C8_disabled_noop (st : BridgeState) (h : st.enableNative = false)
    (u : Option (List (String × JSValue))) (k v : String) (extra : JSValue)
    (b : Breadcrumb) (ctx : Option (List (String × JSValue)))
    (e : Event) (len : Option Nat) (sent : Bool) :
    NATIVE.setUser st u = (.ok (), st, []) ∧
    NATIVE.setTag st k v = (.ok (), st, []) ∧
    NATIVE.setExtra st k extra = (.ok (), st, []) ∧
    NATIVE.setContext st k ctx = (.ok (), st, []) ∧
    NATIVE.addBreadcrumb st b = (.ok (), st, []) ∧
    NATIVE.clearBreadcrumbs st = (.ok (), st, []) ∧
    NATIVE.sendEvent st e len sent = (.ok .skipped, st, []) := by
  refine ⟨?_, ?_, ?_, ?_, ?_, ?_, ?_⟩ <;>
    simp [NATIVE.setUser, NATIVE.setTag, NATIVE.setExtra, NATIVE.setContext,
      NATIVE.addBreadcrumb, NATIVE.clearBreadcrumbs, NATIVE.sendEvent, h]

/-- Witness for C8 at a concrete disabled state. -/
theorem claim_C8_witness :
    NATIVE.sendEvent
      { enableNative := false, nativeIsReady := false,
        moduleLoaded := true, platform := "android" } {} none true =
      (.ok .skipped,
        { enableNative := false, nativeIsReady := false,
          moduleLoaded := true, platform := "android" }, []) :=
  (claim_C8_disabled_noop
    { enableNative := false, nativeIsReady := false,
      moduleLoaded := true, platform := "android" }
    rfl none "k" "v" JSValue.null {} none {} none true).2.2.2.2.2.2

/-- C2 (counterexample): with `enableNative = false`,
`fetchNativeRelease` does not take a silent empty-result path — it
throws `_DisabledNativeError`. -/
theorem claim_C2_counterexample :
    NATIVE.fetchNativeRelease
      { enableNative := false, nativeIsReady := false,
        moduleLoaded := true, platform := "ios" } JSValue.null =
      (.error .disabledNativeError,
        { enableNative := false, nativeIsReady := false,
          moduleLoaded := true, platform := "ios" }, []) :=
  rfl

/-- C2 (amended): when `enableNative` is false, the scope mutations,
`sendEvent` (skip result) and the lifecycle operations `closeNativeSdk`,
`disableNativeFramesTracking` and `nativeCrash` take silent no-op/skip
paths with no native calls, while the five platform-conditional read
operations throw `_DisabledNativeError` (again without touching the
native module). -/
theorem claim_C2_disabled_paths (st : BridgeState) (h : st.enableNative = false)
    (u : Option (List (String × JSValue))) (k v : String) (extra : JSValue)
    (b : Breadcrumb) (ctx : Option (List (String × JSValue)))
    (e : Event) (len : Option Nat) (sent : Bool) (reply : JSValue) :
    NATIVE.setUser st u = (.ok (), st, []) ∧
    NATIVE.setTag st k v = (.ok (), st, []) ∧
    NATIVE.setExtra st k extra = (.ok (), st, []) ∧
    NATIVE.setContext st k ctx = (.ok (), st, []) ∧
    NATIVE.addBreadcrumb st b = (.ok (), st, []) ∧
    NATIVE.clearBreadcrumbs st = (.ok (), st, []) ∧
    NATIVE.sendEvent st e len sent = (.ok .skipped, st, []) ∧
    NATIVE.closeNativeSdk st = (.ok (), st, []) ∧
    NATIVE.disableNativeFramesTracking st = (.ok (), st, []) ∧
    NATIVE.nativeCrash st = (.ok (), st, []) ∧
    NATIVE.fetchNativeRelease st reply = (.error .disabledNativeError, st, []) ∧
    NATIVE.fetchNativeSdkInfo st reply = (.error .disabledNativeError, st, []) ∧
    NATIVE.fetchNativeDeviceContexts st reply = (.error .disabledNativeError, st, []) ∧
    NATIVE.fetchNativeAppStart st reply = (.error .disabledNativeError, st, []) ∧
    NATIVE.fetchNativeFrames st reply = (.error .disabledNativeError, st, []) := by
  refine ⟨?_, ?_, ?_, ?_, ?_, ?_, ?_, ?_, ?_, ?_, ?_, ?_, ?_, ?_, ?_⟩ <;>
    simp [NATIVE.setUser, NATIVE.setTag, NATIVE.setExtra, NATIVE.setContext,
      NATIVE.addBreadcrumb, NATIVE.clearBreadcrumbs, NATIVE.sendEvent,
      NATIVE.closeNativeSdk, NATIVE.disableNativeFramesTracking,
      NATIVE.nativeCrash, NATIVE.fetchNativeRelease, NATIVE.fetchNativeSdkInfo,
      NATIVE.fetchNativeDeviceContexts, NATIVE.fetchNativeAppStart,
      NATIVE.fetchNativeFrames, h]

/-- Witness for C2 (amended) at a concrete disabled state. -/
theorem claim_C2_witness :
    NATIVE.fetchNativeAppStart
      { enableNative := false, nativeIsReady := false,
        moduleLoaded := true, platform := "ios" } JSValue.null =
      (.error .disabledNativeError,
        { enableNative := false, nativeIsReady := false,
          moduleLoaded := true, platform := "ios" }, []) :=
  (claim_C2_disabled_paths
    { enableNative := false, nativeIsReady := false,
      moduleLoaded := true, platform := "ios" }
    rfl none "k" "v" JSValue.null {} none {} none true
    JSValue.null).2.2.2.2.2.2.2.2.2.2.2.2.2.1

/-- C3 (counterexample): with `enableNative = true` and the module
handle unresolved, `closeNativeSdk` and `disableNativeFramesTracking` do
not throw `_NativeClientError` — they return silently. -/
theorem claim_C3_counterexample :
    NATIVE.closeNativeSdk
      { enableNative := true, nativeIsReady := false,
        moduleLoaded := false, platform := "ios" } =
      (.ok (),
        { enableNative := true, nativeIsReady := false,
          moduleLoaded := false, platform := "ios" }, []) ∧
    NATIVE.disableNativeFramesTracking
      { enableNative := true, nativeIsReady := false,
        moduleLoaded := false, platform := "ios" } =
      (.ok (),
        { enableNative := true, nativeIsReady := false,
          moduleLoaded := false, platform := "ios" }, []) :=
  ⟨rfl, rfl⟩

/-- C3 (amended): with `enableNative = true` and the module handle
unresolved, every gated operation except `closeNativeSdk` and
`disableNativeFramesTracking` fails with `_NativeClientError`
(`initNativeSdk` once its option short-circuits do not fire); those two
return silently instead, performing no native call. -/
theorem claim_C3_module_absent (st : BridgeState)
    (hen : st.enableNative = true) (hmod : st.moduleLoaded = false)
    (u : Option (List (String × JSValue))) (k v : String) (extra : JSValue)
    (b : Breadcrumb) (ctx : Option (List (String × JSValue)))
    (e : Event) (len : Option Nat) (sent : Bool) (reply : JSValue)
    (opts : ReactNativeOptions) (ready : Bool)
    (hopt1 : opts.enableNative.getD true = true)
    (hopt2 : opts.autoInitializeNativeSdk.getD true = true)
    (hopt3 : dsnFalsy opts.dsn = false) :
    NATIVE.sendEvent st e len sent = (.error .nativeClientError, st, []) ∧
    NATIVE.initNativeSdk st opts ready = (.error .nativeClientError, st, []) ∧
    NATIVE.fetchNativeRelease st reply = (.error .nativeClientError, st, []) ∧
    NATIVE.fetchNativeSdkInfo st reply = (.error .nativeClientError, st, []) ∧
    NATIVE.fetchNativeDeviceContexts st reply = (.error .nativeClientError, st, []) ∧
    NATIVE.fetchNativeAppStart st reply = (.error .nativeClientError, st, []) ∧
    NATIVE.fetchNativeFrames st reply = (.error .nativeClientError, st, []) ∧
    NATIVE.setUser st u = (.error .nativeClientError, st, []) ∧
    NATIVE.setTag st k v = (.error .nativeClientError, st, []) ∧
    NATIVE.setExtra st k extra = (.error .nativeClientError, st, []) ∧
    NATIVE.setContext st k ctx = (.error .nativeClientError, st, []) ∧
    NATIVE.addBreadcrumb st b = (.error .nativeClientError, st, []) ∧
    NATIVE.clearBreadcrumbs st = (.error .nativeClientError, st, []) ∧
    NATIVE.nativeCrash st = (.error .nativeClientError, st, []) ∧
    NATIVE.closeNativeSdk st = (.ok (), st, []) ∧
    NATIVE.disableNativeFramesTracking st = (.ok (), st, []) := by
  refine ⟨?_, ?_, ?_, ?_, ?_, ?_, ?_, ?_, ?_, ?_, ?_, ?_, ?_, ?_, ?_, ?_⟩ <;>
    simp [NATIVE.sendEvent, NATIVE.initNativeSdk, NATIVE.fetchNativeRelease,
      NATIVE.fetchNativeSdkInfo, NATIVE.fetchNativeDeviceContexts,
      NATIVE.fetchNativeAppStart, NATIVE.fetchNativeFrames, NATIVE.setUser,
      NATIVE.setTag, NATIVE.setExtra, NATIVE.setContext, NATIVE.addBreadcrumb,
      NATIVE.clearBreadcrumbs, NATIVE.nativeCrash, NATIVE.closeNativeSdk,
      NATIVE.disableNativeFramesTracking, NATIVE._isModuleLoaded,
      hen, hmod, hopt1, hopt2, hopt3]

/-- Witness for C3 (amended) at a concrete state with the module
absent. -/
theorem claim_C3_witness :
    NATIVE.sendEvent
      { enableNative := true, nativeIsReady := false,
        moduleLoaded := false, platform := "android" } {} none true =
      (.error .nativeClientError,
        { enableNative := true, nativeIsReady := false,
          moduleLoaded := false, platform := "android" }, []) :=
  (claim_C3_module_absent
    { enableNative := true, nativeIsReady := false,
      moduleLoaded := false, platform := "android" }
    rfl rfl none "k" "v" JSValue.null {} none {} none true JSValue.null
    { dsn := some "https://key@sentry.example/1" } true
    rfl rfl rfl).1

/-- C9: in `closeNativeSdk`'s action trace every write of
`enableNative := false` occurs strictly after the native `closeNativeSdk`
call (never before); no operation of the bridge ever emits a write of
`enableNative := true`, and once `enableNative` is false it stays false
after every operation. -/
theorem claim_C9_close_ordering_and_monotonicity (op : BridgeOp) (st : BridgeState) :
    (∀ i, ((NATIVE.closeNativeSdk st).2.2).get? i = some (.setEnableNative false) →
      ∃ j, j < i ∧
        ((NATIVE.closeNativeSdk st).2.2).get? j = some (.native .closeNativeSdk)) ∧
    BridgeAction.setEnableNative true ∉ opActions op st ∧
    (st.enableNative = false → (opState op st).enableNative = false) := by
  refine ⟨?_, ?_, ?_⟩
  · intro i hi
    by_cases h1 : st.enableNative = true
    · by_cases h2 : st.moduleLoaded = true
      · simp only [NATIVE.closeNativeSdk, NATIVE._isModuleLoaded, h1, h2,
          Bool.not_true, Bool.false_eq_true, if_false] at hi ⊢
        rcases i with _ | _ | i
        · simp at hi
        · exact ⟨0, Nat.zero_lt_one, rfl⟩
        · simp at hi
      · simp [NATIVE.closeNativeSdk, NATIVE._isModuleLoaded, h1, h2] at hi
    · simp [NATIVE.closeNativeSdk, h1] at hi
  · cases op <;>
      simp [opActions, runOp, NATIVE.sendEvent, NATIVE.initNativeSdk,
        NATIVE.closeNativeSdk, NATIVE.fetchNativeRelease,
        NATIVE.fetchNativeSdkInfo, NATIVE.fetchNativeDeviceContexts,
        NATIVE.fetchNativeAppStart, NATIVE.fetchNativeFrames, NATIVE.setUser,
        NATIVE.setTag, NATIVE.setExtra, NATIVE.setContext,
        NATIVE.addBreadcrumb, NATIVE.clearBreadcrumbs, NATIVE.nativeCrash,
        NATIVE.disableNativeFramesTracking] <;>
      split_ifs <;>
      simp_all <;>
      (try split) <;>
      simp
  · intro h
    cases op <;>
      simp [opState, runOp, NATIVE.sendEvent, NATIVE.initNativeSdk,
        NATIVE.closeNativeSdk, NATIVE.fetchNativeRelease,
        NATIVE.fetchNativeSdkInfo, NATIVE.fetchNativeDeviceContexts,
        NATIVE.fetchNativeAppStart, NATIVE.fetchNativeFrames, NATIVE.setUser,
        NATIVE.setTag, NATIVE.setExtra, NATIVE.setContext,
        NATIVE.addBreadcrumb, NATIVE.clearBreadcrumbs, NATIVE.nativeCrash,
        NATIVE.disableNativeFramesTracking, h] <;>
      split_ifs <;>
      simp_all <;>
      (try split) <;>
      simp_all

/-- Witness for C9 at a concrete operation and state. -/
theorem claim_C9_witness :
    (opState BridgeOp.clearBreadcrumbs
      { enableNative := false, nativeIsReady := false,
        moduleLoaded := true, platform := "ios" }).enableNative = false :=
  (claim_C9_close_ordering_and_monotonicity BridgeOp.clearBreadcrumbs
    { enableNative := false, nativeIsReady := false,
      moduleLoaded := true, platform := "ios" }).2.2 rfl

/-- Event preparation does not change the exception mechanism read by
the Android special case. -/
theorem eventHandled_prepared (e : Event) :
    NATIVE.eventHandled (NATIVE.preparedEvent e) = NATIVE.eventHandled e :=
  rfl

/-- The `breadcrumbs` member of the payload object is the event's
breadcrumb list rendered as a JS array (`undefined` when absent). -/
theorem getField_breadcrumbs_payload (ev : Event) :
    (NATIVE.payloadJS ev).getField "breadcrumbs" =
      some (optJS (fun bs => JSValue.arr (bs.map Breadcrumb.toJS)) ev.breadcrumbs) :=
  rfl

/-- The concrete Android-path event refuting C1: no exception (so no
`handled` flag) and one breadcrumb. -/
def eventC1 : Event :=
  { breadcrumbs := some [{ category := some "nav", message := some "tap" }] }

/-- C1 (counterexample): for an event whose `handled` flag is absent and
whose breadcrumb list is non-empty, the Android payload carries an
*empty* breadcrumb list — the original list is not preserved. -/
theorem claim_C1_counterexample :
    NATIVE.eventHandled eventC1 = none ∧
    eventC1.breadcrumbs =
      some [{ category := some "nav", message := some "tap" }] ∧
    (NATIVE.androidPayload eventC1).getField "breadcrumbs" =
      some (JSValue.arr []) ∧
    (NATIVE.androidPreparedEvent eventC1).breadcrumbs = some [] ∧
    ([] : List Breadcrumb) ≠ [{ category := some "nav", message := some "tap" }] := by
  refine ⟨rfl, rfl, rfl, rfl, by simp⟩

/-- C1 (amended): on the Android path, when `handled == false` the
payload carries the event's breadcrumb list (after severity
normalization of each breadcrumb); when `handled` is `true` **or
absent** (the code tests `handled != false`) and the breadcrumb field is
present, the payload carries an empty breadcrumb list. -/
theorem claim_C1_android_breadcrumbs (e : Event) :
    (NATIVE.eventHandled e = some false →
      (NATIVE.androidPreparedEvent e).breadcrumbs =
        (NATIVE._processLevels e).breadcrumbs ∧
      (NATIVE.androidPayload e).getField "breadcrumbs" =
        some (optJS (fun bs => JSValue.arr (bs.map Breadcrumb.toJS))
          ((NATIVE._processLevels e).breadcrumbs))) ∧
    (NATIVE.eventHandled e ≠ some false → e.breadcrumbs ≠ none →
      (NATIVE.androidPreparedEvent e).breadcrumbs = some [] ∧
      (NATIVE.androidPayload e).getField "breadcrumbs" =
        some (JSValue.arr [])) := by
  constructor
  · intro hf
    have hbc : (NATIVE.androidPreparedEvent e).breadcrumbs =
        (NATIVE._processLevels e).breadcrumbs := by
      simp only [NATIVE.androidPreparedEvent, NATIVE.androidAdjustBreadcrumbs,
        eventHandled_prepared, hf, ne_eq, not_true_eq_false, false_and, if_false]
      rfl
    refine ⟨hbc, ?_⟩
    rw [NATIVE.androidPayload, getField_breadcrumbs_payload, hbc]
  · intro hf hb
    have hbc : (NATIVE.androidPreparedEvent e).breadcrumbs = some [] := by
      have hsome : ((NATIVE.preparedEvent e).breadcrumbs).isSome = true := by
        simp [NATIVE.preparedEvent, NATIVE._processLevels,
          Option.isSome_iff_ne_none, hb]
      simp [NATIVE.androidPreparedEvent, NATIVE.androidAdjustBreadcrumbs,
        eventHandled_prepared, hf, hsome]
    refine ⟨hbc, ?_⟩
    rw [NATIVE.androidPayload, getField_breadcrumbs_payload, hbc]
    rfl

/-- A concrete unhandled crash event (`handled == false`) with one
breadcrumb, used to witness C1 (amended). -/
def eventC1W : Event :=
  { breadcrumbs := some [{ category := some "nav" }],
    exception := some
      { values := some [{ mechanism := some { handled := some false } }] } }

/-- Witness for C1 (amended) at a concrete unhandled crash event. -/
theorem claim_C1_witness :
    (NATIVE.androidPreparedEvent eventC1W).breadcrumbs =
      (NATIVE._processLevels eventC1W).breadcrumbs :=
  ((claim_C1_android_breadcrumbs eventC1W).1 rfl).1

/-- Replace the `breadcrumbs` member of a payload object by `undefined`
(for comparing payloads on every other field). -/
def maskBreadcrumbs : JSValue → JSValue
  | .obj fs => .obj (fs.map (fun kv =>
      if kv.1 = "breadcrumbs" then (kv.1, .undefined) else kv))
  | v => v

/-- When the event is an unhandled crash (`handled == false`) or has no
breadcrumb field, the Android special case leaves the prepared event
untouched. -/
theorem androidPrepared_eq_prepared (e : Event)
    (h : NATIVE.eventHandled e = some false ∨ e.breadcrumbs = none) :
    NATIVE.androidPreparedEvent e = NATIVE.preparedEvent e := by
  rcases h with h | h
  · simp [NATIVE.androidPreparedEvent, NATIVE.androidAdjustBreadcrumbs,
      eventHandled_prepared, h]
  · have hns : ((NATIVE.preparedEvent e).breadcrumbs).isSome = false := by
      simp [NATIVE.preparedEvent, NATIVE._processLevels, h]
    simp [NATIVE.androidPreparedEvent, NATIVE.androidAdjustBreadcrumbs, hns]

/-- The concrete event refuting C4: one breadcrumb, no exception, so the
Android path clears the list while the iOS path keeps it. -/
def eventC4 : Event :=
  { breadcrumbs := some [{ category := some "ui" }] }

/-- C4 (counterexample): for an event with a breadcrumb and no `handled`
flag, the Android payload's breadcrumb field is the empty array while
the iOS payload's is not — the logical payloads are not field-for-field
equivalent. -/
theorem claim_C4_counterexample :
    (NATIVE.androidPayload eventC4).getField "breadcrumbs" =
      some (JSValue.arr []) ∧
    (NATIVE.iosPayload eventC4).getField "breadcrumbs" =
      some (JSValue.arr [JSValue.obj [("category", JSValue.str "ui")]]) ∧
    JSValue.arr [] ≠ JSValue.arr [JSValue.obj [("category", JSValue.str "ui")]] :=
  ⟨rfl, rfl, by simp⟩

/-- C4 (amended): the Android and iOS payloads agree on every field
except `breadcrumbs` (which Android clears whenever `handled != false`
and breadcrumbs are present); whenever `handled == false` or the event
has no breadcrumb field they are fully field-for-field equivalent; the
two paths otherwise differ only in framing — Android serializes
header/item/payload to newline-joined text with an explicitly computed
byte length, iOS hands over a structured `{header, payload}` value whose
length the native side computes. -/
theorem claim_C4_platform_payloads (e : Event) (stA stI : BridgeState)
    (len : Option Nat) (sent : Bool)
    (hAen : stA.enableNative = true) (hAmod : stA.moduleLoaded = true)
    (hAplat : stA.platform = "android")
    (hIen : stI.enableNative = true) (hImod : stI.moduleLoaded = true)
    (hIplat : stI.platform ≠ "android") :
    maskBreadcrumbs (NATIVE.androidPayload e) =
      maskBreadcrumbs (NATIVE.iosPayloadRaw e) ∧
    ((NATIVE.eventHandled e = some false ∨ e.breadcrumbs = none) →
      NATIVE.androidPayload e = NATIVE.iosPayloadRaw e ∧
      jsonRoundTrip (NATIVE.androidPayload e) = NATIVE.iosPayload e) ∧
    (NATIVE.sendEvent stA e len sent).2.2 =
      [.native (.getStringBytesLength
         (jsonStringifyD (NATIVE.androidPayload e))),
       .native (.captureEnvelopeText
         (jsonStringifyD (NATIVE.headerJS (NATIVE.preparedEvent e)) ++ "\n" ++
          jsonStringifyD (NATIVE.androidItemJS e
            (len.getD (jsonStringifyD (NATIVE.androidPayload e)).length)) ++
          "\n" ++ jsonStringifyD (NATIVE.androidPayload e)))] ∧
    (NATIVE.sendEvent stI e len sent).2.2 =
      [.native (.captureEnvelopeStruct (NATIVE.headerJS (NATIVE.preparedEvent e))
        (NATIVE.iosPayload e))] := by
  refine ⟨?_, ?_, ?_, ?_⟩
  · unfold NATIVE.androidPayload NATIVE.androidPreparedEvent
      NATIVE.androidAdjustBreadcrumbs
    split <;> rfl
  · intro h
    rw [NATIVE.androidPayload, androidPrepared_eq_prepared e h]
    exact ⟨rfl, rfl⟩
  · simp [NATIVE.sendEvent, NATIVE._isModuleLoaded, hAen, hAmod, hAplat,
      NATIVE.androidPayload, NATIVE.androidPreparedEvent]
  · simp [NATIVE.sendEvent, NATIVE._isModuleLoaded, hIen, hImod, hIplat,
      NATIVE.iosPayload, NATIVE.iosPayloadRaw]

/-- Witness for C4 (amended) at a breadcrumb-free event and concrete
platform states. -/
theorem claim_C4_witness :
    NATIVE.androidPayload {} = NATIVE.iosPayloadRaw {} :=
  ((claim_C4_platform_payloads {}
    { enableNative := true, nativeIsReady := false,
      moduleLoaded := true, platform := "android" }
    { enableNative := true, nativeIsReady := false,
      moduleLoaded := true, platform := "ios" }
    none true rfl rfl rfl rfl rfl (by decide)).2.1 (Or.inr rfl)).1
